import Mathlib

/-!
# Formal model of the whack-a-mole game core

A shallow embedding of the game-loop logic of the `Game` component
(spawn scheduler, lifecycle sweeper, hit resolver, round controller)
together with the entity model from the types module.

Times are modelled as rationals (milliseconds, as produced by `Date.now()`);
the random draws consumed by `Math.random()` are passed in explicitly as
parameters.  React's functional state updates are modelled by explicit
state passing: event handlers and the per-frame loop body are pure
functions from a `GameState` to a `GameState`.  The deferred
`setTimeout(() => onGameOver(score), 500)` calls and the synchronous
`onGameOver(score)` call on time expiry are recorded in a `reports` list
(delay in ms, reported score); each list entry corresponds to exactly one
(scheduled) invocation of the `onGameOver` callback.
-/

namespace WhackAMole

/-- Entity kinds, from the types module (`EntityType`). -/
inductive EntityType where
  | mole
  | golden
  | bomb
  deriving DecidableEq, Repr

/-- One active spawn occupying a slot (`GameEntity`).  The opaque string id
is modelled as a natural number. -/
structure GameEntity where
  id : ℕ
  type : EntityType
  spawnTime : ℚ
  duration : ℚ
  isHit : Bool
  deriving DecidableEq, Repr

/-- The slot grid (`GridState`): a list of optional entities, length 12. -/
abbrev GridState := List (Option GameEntity)

def GRID_SIZE : ℕ := 12

def GAME_DURATION : ℚ := 30

def SPAWN_INTERVAL_START : ℚ := 800

def SPAWN_INTERVAL_END : ℚ := 400

def MOLE_DURATION_START : ℚ := 1500

def MOLE_DURATION_END : ℚ := 700

/-- The mutable state owned by the `Game` component: the `useState` cells
(`grid`, `score`, `timeLeft`, `lives`, `isPaused`) and the `useRef` cells
(`lastSpawnTime`, `startTime`, `pausedTime`), plus the `reports` list
recording every (scheduled) `onGameOver(score)` invocation as a pair
(delay in ms, carried score). -/
structure GameState where
  grid : GridState
  score : ℕ
  timeLeft : ℚ
  lives : ℤ
  isPaused : Bool
  lastSpawnTime : ℚ
  startTime : ℚ
  pausedTime : ℚ
  reports : List (ℚ × ℕ)
  deriving DecidableEq, Repr

/-- Initial state of a round: grid all empty, score 0, `timeLeft = GAME_DURATION`,
3 lives, unpaused, `startTime.current = Date.now()` (the mount time),
`lastSpawnTime.current = 0`, `pausedTime.current = 0`. -/
def initialState (now : ℚ) : GameState :=
  { grid := List.replicate GRID_SIZE none
    score := 0
    timeLeft := GAME_DURATION
    lives := 3
    isPaused := false
    lastSpawnTime := 0
    startTime := now
    pausedTime := 0
    reports := [] }

/-- `getDifficulty`: `Math.min(Math.max(elapsed / GAME_DURATION, 0), 1)` with
`elapsed = GAME_DURATION - timeLeft`. -/
def getDifficulty (timeLeft : ℚ) : ℚ :=
  let elapsed := GAME_DURATION - timeLeft
  min (max (elapsed / GAME_DURATION) 0) 1

/-- The predicate of the filter `e => e !== null && !e.isHit` in `spawnEntity`. -/
def isUnhit : Option GameEntity → Bool
  | some e => !e.isHit
  | none => false

/-- `grid.filter(e => e !== null && !e.isHit).length`. -/
def unhitCount (g : GridState) : ℕ :=
  (g.filter isUnhit).length

/-- `1 + Math.floor(difficulty * 2)`, the concurrency cap in `spawnEntity`. -/
def maxConcurrentOf (timeLeft : ℚ) : ℤ :=
  1 + Int.floor (getDifficulty timeLeft * 2)

/-- `grid.map((e, i) => e === null ? i : -1).filter(i => i !== -1)`:
the indices of the currently empty slots. -/
def emptyIndices (g : GridState) : List ℕ :=
  (List.range g.length).filter fun i => (g.getD i none).isNone

/-- `spawnEntity`, as a pure function of the `grid` and `timeLeft` state it
closes over, the current time `now = Date.now()`, the two uniform draws made
by `Math.random()` (`slotRoll` for the hole pick, `typeRoll` for the kind)
and a fresh id.  Returns the slot index and entity written by `setGrid`,
or `none` when the spawn is skipped. -/
def spawnEntity (grid : GridState) (timeLeft now slotRoll typeRoll : ℚ)
    (newId : ℕ) : Option (ℕ × GameEntity) :=
  let difficulty := getDifficulty timeLeft
  let maxConcurrent := maxConcurrentOf timeLeft
  let currentCount := unhitCount grid
  if (currentCount : ℤ) ≥ maxConcurrent then none
  else
    let empties := emptyIndices grid
    if empties.length = 0 then none
    else
      let randomIndex := empties.getD (Int.floor (slotRoll * empties.length)).toNat 0
      let type :=
        if typeRoll > 0.85 then EntityType.bomb
        else if typeRoll > 0.7 then EntityType.golden
        else EntityType.mole
      let duration :=
        MOLE_DURATION_START - difficulty * (MOLE_DURATION_START - MOLE_DURATION_END)
      some (randomIndex,
        { id := newId
          type := type
          spawnTime := now
          duration := duration
          isHit := false })

/-- JavaScript array read `grid[index]` for an arbitrary integer index:
out-of-range (negative or past the end) yields `undefined`, i.e. `none`. -/
def gridGet (g : GridState) (i : ℤ) : Option GameEntity :=
  if 0 ≤ i then g.getD i.toNat none else none

/-- In-range JavaScript array write `grid[index] = e` (used only behind the
`if (next[index])` guard, so only at indices that hold an entity). -/
def gridSet (g : GridState) (i : ℤ) (e : Option GameEntity) : GridState :=
  if 0 ≤ i then g.set i.toNat e else g

/-- The `setGrid` updater of `handleWhack`:
`if (next[index]) next[index] = { ...next[index]!, isHit: true }`. -/
def markHit (i : ℤ) (g : GridState) : GridState :=
  match gridGet g i with
  | none => g
  | some e => gridSet g i (some { e with isHit := true })

/-- `handleWhack(index)`: the hit resolver.  Returns without effect when the
slot is empty (or the index out of range) or the entity already hit;
otherwise marks the entity hit and applies the score/life effect.  A bomb
hit that takes `newLives` to `≤ 0` appends a deferred round-end report
`(500, score)` — the `setTimeout(() => onGameOver(score), 500)`. -/
def handleWhack (index : ℤ) (s : GameState) : GameState :=
  match gridGet s.grid index with
  | none => s
  | some entity =>
    if entity.isHit then s
    else
      let grid' := markHit index s.grid
      match entity.type with
      | EntityType.bomb =>
        let newLives := s.lives - 1
        let reports' :=
          if newLives ≤ 0 then s.reports ++ [((500 : ℚ), s.score)] else s.reports
        { s with grid := grid', lives := newLives, reports := reports' }
      | EntityType.golden =>
        { s with grid := grid', score := s.score + 3 }
      | EntityType.mole =>
        { s with grid := grid', score := s.score + 1 }

/-- One slot of the despawn sweep in the loop body:
hit entities are cleared `500ms` after their lifetime, unhit entities at
their lifetime, everything else is left unchanged. -/
def sweepEntity (now : ℚ) : Option GameEntity → Option GameEntity
  | none => none
  | some entity =>
    if entity.isHit = true ∧ now - entity.spawnTime > entity.duration + 500 then none
    else if entity.isHit = false ∧ now - entity.spawnTime > entity.duration then none
    else some entity

/-- `setGrid(prev => prev.map(...))`: the per-tick lifecycle sweep. -/
def sweepGrid (now : ℚ) (g : GridState) : GridState :=
  g.map (sweepEntity now)

/-- The remaining time the loop body computes at clock value `now`:
`Math.max(GAME_DURATION - (now - startTime.current) / 1000, 0)`. -/
def remainingAt (s : GameState) (now : ℚ) : ℚ :=
  max (GAME_DURATION - (now - s.startTime) / 1000) 0

/-- The spawn-cadence interval the loop body computes at clock value `now`:
`SPAWN_INTERVAL_START - difficulty * (SPAWN_INTERVAL_START - SPAWN_INTERVAL_END)`
with `difficulty = (GAME_DURATION - newTimeLeft) / GAME_DURATION`. -/
def currentSpawnInterval (s : GameState) (now : ℚ) : ℚ :=
  let newTimeLeft := remainingAt s now
  let difficulty := (GAME_DURATION - newTimeLeft) / GAME_DURATION
  SPAWN_INTERVAL_START - difficulty * (SPAWN_INTERVAL_START - SPAWN_INTERVAL_END)

/-- One execution of the `loop` body at clock value `now`.  When paused it
only reschedules itself.  Otherwise it updates the timer; on expiry it
reports the score (`onGameOver(score)`, delay 0) and stops.  Otherwise it
sweeps the grid and, when the spawn cadence has elapsed since the last
spawn attempt, runs `spawnEntity` and records the attempt time.

Per React's snapshot semantics, `spawnEntity` reads the `grid` and
`timeLeft` values of the render closure (the pre-tick state), while its
`setGrid` write is applied after the sweep's functional update, i.e. to
the swept grid. -/
def loop (now slotRoll typeRoll : ℚ) (newId : ℕ) (s : GameState) : GameState :=
  if s.isPaused then s
  else
    let newTimeLeft := remainingAt s now
    if newTimeLeft ≤ 0 then
      { s with timeLeft := newTimeLeft, reports := s.reports ++ [((0 : ℚ), s.score)] }
    else
      let swept := sweepGrid now s.grid
      let interval := currentSpawnInterval s now
      if now - s.lastSpawnTime > interval then
        match spawnEntity s.grid s.timeLeft now slotRoll typeRoll newId with
        | some (i, e) =>
          { s with grid := swept.set i (some e), timeLeft := newTimeLeft,
                   lastSpawnTime := now }
        | none =>
          { s with grid := swept, timeLeft := newTimeLeft, lastSpawnTime := now }
      else
        { s with grid := swept, timeLeft := newTimeLeft }

/-- The pause half of the pause-handling effect: when `isPaused` becomes
true, `pausedTime.current = Date.now()`. -/
def pauseGame (now : ℚ) (s : GameState) : GameState :=
  { s with isPaused := true, pausedTime := now }

/-- The resume half of the pause-handling effect: when `isPaused` becomes
false with `pausedTime.current > 0`, the start-time reference is shifted
forward by the pause duration `Date.now() - pausedTime.current`. -/
def resumeGame (now : ℚ) (s : GameState) : GameState :=
  if s.pausedTime > 0 then
    { s with isPaused := false
             startTime := s.startTime + (now - s.pausedTime)
             pausedTime := 0 }
  else
    { s with isPaused := false }

/-- The states reachable from a fresh round by any interleaving of player
interactions (`handleWhack`), loop ticks, and pause/resume transitions,
with a monotone clock.  The index is the time of the last clocked event. -/
inductive Reachable : ℚ → GameState → Prop where
  | init (t0 : ℚ) (h : 0 < t0) : Reachable t0 (initialState t0)
  | whack (t : ℚ) (s : GameState) (i : ℤ) (h : Reachable t s) :
      Reachable t (handleWhack i s)
  | tick (t now slotRoll typeRoll : ℚ) (newId : ℕ) (s : GameState)
      (h : Reachable t s) (hmono : t ≤ now) :
      Reachable now (loop now slotRoll typeRoll newId s)
  | pause (t now : ℚ) (s : GameState) (h : Reachable t s) (hmono : t ≤ now) :
      Reachable now (pauseGame now s)
  | resume (t now : ℚ) (s : GameState) (h : Reachable t s) (hmono : t ≤ now) :
      Reachable now (resumeGame now s)

/-! ### Concrete states used in the concrete-evaluation theorems -/

def bombA : GameEntity :=
  { id := 1, type := EntityType.bomb, spawnTime := 2000, duration := 1500, isHit := false }

def bombB : GameEntity :=
  { id := 2, type := EntityType.bomb, spawnTime := 3000, duration := 4420/3, isHit := false }

def bombC : GameEntity :=
  { id := 3, type := EntityType.bomb, spawnTime := 4000, duration := 4340/3, isHit := false }

def bombD : GameEntity :=
  { id := 4, type := EntityType.bomb, spawnTime := 5000, duration := 1420, isHit := false }

def hitOf (e : GameEntity) : GameEntity := { e with isHit := true }

def traceS1 : GameState :=
  { grid := [some bombA, none, none, none, none, none, none, none, none, none, none, none]
    score := 0, timeLeft := 29, lives := 3, isPaused := false
    lastSpawnTime := 2000, startTime := 1000, pausedTime := 0, reports := [] }

def traceS2 : GameState :=
  { grid := [some (hitOf bombA), none, none, none, none, none, none, none, none, none, none, none]
    score := 0, timeLeft := 29, lives := 2, isPaused := false
    lastSpawnTime := 2000, startTime := 1000, pausedTime := 0, reports := [] }

def traceS3 : GameState :=
  { grid := [some (hitOf bombA), some bombB, none, none, none, none, none, none, none, none, none, none]
    score := 0, timeLeft := 28, lives := 2, isPaused := false
    lastSpawnTime := 3000, startTime := 1000, pausedTime := 0, reports := [] }

def traceS4 : GameState :=
  { grid := [some (hitOf bombA), some (hitOf bombB), none, none, none, none, none, none, none, none, none, none]
    score := 0, timeLeft := 28, lives := 1, isPaused := false
    lastSpawnTime := 3000, startTime := 1000, pausedTime := 0, reports := [] }

def traceS5 : GameState :=
  { grid := [some (hitOf bombA), some (hitOf bombB), some bombC, none, none, none, none, none, none, none, none, none]
    score := 0, timeLeft := 27, lives := 1, isPaused := false
    lastSpawnTime := 4000, startTime := 1000, pausedTime := 0, reports := [] }

def traceS6 : GameState :=
  { grid := [some (hitOf bombA), some (hitOf bombB), some (hitOf bombC), none, none, none, none, none, none, none, none, none]
    score := 0, timeLeft := 27, lives := 0, isPaused := false
    lastSpawnTime := 4000, startTime := 1000, pausedTime := 0, reports := [(500, 0)] }

def traceS7 : GameState :=
  { grid := [none, none, some (hitOf bombC), some bombD, none, none, none, none, none, none, none, none]
    score := 0, timeLeft := 26, lives := 0, isPaused := false
    lastSpawnTime := 5000, startTime := 1000, pausedTime := 0, reports := [(500, 0)] }

def traceS8 : GameState :=
  { grid := [none, none, some (hitOf bombC), some (hitOf bombD), none, none, none, none, none, none, none, none]
    score := 0, timeLeft := 26, lives := -1, isPaused := false
    lastSpawnTime := 5000, startTime := 1000, pausedTime := 0, reports := [(500, 0), (500, 0)] }

def bombTrace : GameState :=
  handleWhack 3 (loop 5000 0 0.9 4 (handleWhack 2 (loop 4000 0 0.9 3
    (handleWhack 1 (loop 3000 0 0.9 2 (handleWhack 0 (loop 2000 0 0.9 1
      (initialState 1000))))))))

def c8State : GameState :=
  { grid := List.replicate GRID_SIZE none
    score := 0
    timeLeft := GAME_DURATION
    lives := 3
    isPaused := false
    lastSpawnTime := 720
    startTime := 0
    pausedTime := 0
    reports := [] }

def pausedDemo : GameState := pauseGame 4000 (initialState 1000)

/-- The inductive invariant carried along `Reachable`: the concurrency cap on
unhit occupied slots, non-negativity of the timer, and the bookkeeping tying
`timeLeft`, `startTime` and `pausedTime` to the current clock value. -/
structure Inv (t : ℚ) (s : GameState) : Prop where
  tpos : 0 < t
  cap : (unhitCount s.grid : ℤ) ≤ maxConcurrentOf s.timeLeft
  tlNonneg : 0 ≤ s.timeLeft
  clock : s.isPaused = false → GAME_DURATION - (t - s.startTime) / 1000 ≤ s.timeLeft
  pclock : s.isPaused = true →
    GAME_DURATION - (s.pausedTime - s.startTime) / 1000 ≤ s.timeLeft
  ptLe : s.isPaused = true → s.pausedTime ≤ t
  ptPos : s.isPaused = true → 0 < s.pausedTime
  ptZero : s.isPaused = false → s.pausedTime = 0

/-! ### List and grid access lemmas -/

theorem getD_set_self {α : Type} (l : List α) (n : ℕ) (x d : α) (h : n < l.length) :
    (l.set n x).getD n d = x := by
  rw [List.getD_eq_getElem?_getD, List.getElem?_set_self (by simpa using h)]
  rfl

theorem getD_set_ne {α : Type} (l : List α) (m n : ℕ) (x d : α) (h : m ≠ n) :
    (l.set m x).getD n d = l.getD n d := by
  rw [List.getD_eq_getElem?_getD, List.getElem?_set_ne h, ← List.getD_eq_getElem?_getD]

theorem getD_of_length_le {α : Type} (l : List α) (n : ℕ) (d : α) (h : l.length ≤ n) :
    l.getD n d = d := by
  rw [List.getD_eq_getElem?_getD, List.getElem?_eq_none h]
  rfl

theorem lt_length_of_getD_some {β : Type} (l : List (Option β)) (n : ℕ) (e : β)
    (h : l.getD n none = some e) : n < l.length := by
  by_contra hn
  rw [getD_of_length_le l n none (le_of_not_lt hn)] at h
  exact Option.noConfusion h

/- gridGet / gridSet -/

theorem gridGet_some_nonneg (g : GridState) (i : ℤ) (e : GameEntity)
    (h : gridGet g i = some e) : 0 ≤ i := by
  by_contra hi
  simp [gridGet, hi] at h

theorem gridGet_some_lt (g : GridState) (i : ℤ) (e : GameEntity)
    (h : gridGet g i = some e) : i.toNat < g.length := by
  have h0 := gridGet_some_nonneg g i e h
  rw [gridGet, if_pos h0] at h
  exact lt_length_of_getD_some _ _ _ h

theorem gridGet_gridSet_self (g : GridState) (i : ℤ) (e : GameEntity)
    (x : Option GameEntity) (h : gridGet g i = some e) :
    gridGet (gridSet g i x) i = x := by
  have h0 := gridGet_some_nonneg g i e h
  have hlt := gridGet_some_lt g i e h
  rw [gridSet, if_pos h0, gridGet, if_pos h0, getD_set_self _ _ _ _ hlt]

theorem gridGet_gridSet_ne (g : GridState) (i j : ℤ) (x : Option GameEntity)
    (hij : j ≠ i) (hi : 0 ≤ i) :
    gridGet (gridSet g i x) j = gridGet g j := by
  rw [gridSet, if_pos hi]
  by_cases hj : 0 ≤ j
  · rw [gridGet, if_pos hj, gridGet, if_pos hj]
    refine getD_set_ne _ _ _ _ _ ?_
    omega
  · rw [gridGet, if_neg hj, gridGet, if_neg hj]

theorem length_gridSet (g : GridState) (i : ℤ) (x : Option GameEntity) :
    (gridSet g i x).length = g.length := by
  rw [gridSet]
  split
  · exact List.length_set ..
  · rfl

/- markHit -/

theorem markHit_of_none (g : GridState) (i : ℤ) (h : gridGet g i = none) :
    markHit i g = g := by
  rw [markHit, h]

theorem markHit_of_some (g : GridState) (i : ℤ) (e : GameEntity)
    (h : gridGet g i = some e) :
    markHit i g = gridSet g i (some { e with isHit := true }) := by
  rw [markHit, h]

theorem gridGet_markHit_self (g : GridState) (i : ℤ) (e : GameEntity)
    (h : gridGet g i = some e) :
    gridGet (markHit i g) i = some { e with isHit := true } := by
  rw [markHit_of_some g i e h]
  exact gridGet_gridSet_self g i e _ h

/- handleWhack basic shapes -/

/-! ### Shape lemmas for the hit resolver and the loop body -/

theorem handleWhack_of_none (s : GameState) (i : ℤ) (h : gridGet s.grid i = none) :
    handleWhack i s = s := by
  rw [handleWhack, h]

theorem handleWhack_of_hit (s : GameState) (i : ℤ) (e : GameEntity)
    (h : gridGet s.grid i = some e) (hh : e.isHit = true) :
    handleWhack i s = s := by
  rw [handleWhack, h]
  simp [hh]

theorem handleWhack_grid_of_unhit (s : GameState) (i : ℤ) (e : GameEntity)
    (h : gridGet s.grid i = some e) (hh : e.isHit = false) :
    (handleWhack i s).grid = markHit i s.grid := by
  rw [handleWhack, h]
  simp only [hh]
  cases e.type <;> simp

theorem handleWhack_frame (s : GameState) (i : ℤ) :
    (handleWhack i s).timeLeft = s.timeLeft ∧
    (handleWhack i s).startTime = s.startTime ∧
    (handleWhack i s).isPaused = s.isPaused ∧
    (handleWhack i s).pausedTime = s.pausedTime ∧
    (handleWhack i s).lastSpawnTime = s.lastSpawnTime := by
  rw [handleWhack]
  cases h : gridGet s.grid i with
  | none => simp
  | some e =>
    by_cases hh : e.isHit
    · simp [hh]
    · simp only [hh]
      cases e.type <;> simp

theorem handleWhack_idem (s : GameState) (i : ℤ) :
    handleWhack i (handleWhack i s) = handleWhack i s := by
  cases h : gridGet s.grid i with
  | none =>
    rw [handleWhack_of_none s i h, handleWhack_of_none s i h]
  | some e =>
    by_cases hh : e.isHit
    · rw [handleWhack_of_hit s i e h hh, handleWhack_of_hit s i e h hh]
    · have hh' : e.isHit = false := by simpa using hh
      have hgrid : (handleWhack i s).grid = markHit i s.grid :=
        handleWhack_grid_of_unhit s i e h hh'
      have hget : gridGet (handleWhack i s).grid i = some { e with isHit := true } := by
        rw [hgrid]
        exact gridGet_markHit_self s.grid i e h
      exact handleWhack_of_hit (handleWhack i s) i _ hget rfl


/- C3 / C9 / C10 claim theorems (draft) -/

theorem loop_preserves_score_lives (now sr tr : ℚ) (newId : ℕ) (s : GameState) :
    (loop now sr tr newId s).score = s.score ∧ (loop now sr tr newId s).lives = s.lives := by
  simp only [loop]
  repeat' split
  all_goals exact ⟨rfl, rfl⟩

theorem sweepEntity_cases (now : ℚ) (a : Option GameEntity) :
    sweepEntity now a = a ∨ sweepEntity now a = none := by
  cases a with
  | none => exact Or.inl rfl
  | some e =>
    rw [sweepEntity]
    split
    · exact Or.inr rfl
    · split
      · exact Or.inr rfl
      · exact Or.inl rfl

/-! ### Evaluation of the three-bomb round (four bomb hits in one round) -/

theorem int_toNat_two : (2 : ℤ).toNat = 2 := rfl

theorem int_toNat_three : (3 : ℤ).toNat = 3 := rfl

theorem traceStep1 : loop 2000 0 0.9 1 (initialState 1000) = traceS1 := by
  norm_num [loop, initialState, traceS1, bombA, remainingAt, currentSpawnInterval,
    sweepGrid, sweepEntity, spawnEntity, getDifficulty, maxConcurrentOf,
    unhitCount, emptyIndices, isUnhit, GAME_DURATION, GRID_SIZE,
    SPAWN_INTERVAL_START, SPAWN_INTERVAL_END, MOLE_DURATION_START,
    MOLE_DURATION_END, List.replicate, List.range_succ, List.filter]

theorem traceStep2 : handleWhack 0 traceS1 = traceS2 := by
  norm_num [handleWhack, traceS1, traceS2, bombA, hitOf, gridGet, gridSet,
    markHit, List.getD, List.set, Int.toNat_ofNat, List.getElem?_cons_zero, List.getElem?_cons_succ]

theorem traceStep3 : loop 3000 0 0.9 2 traceS2 = traceS3 := by
  norm_num [loop, traceS2, traceS3, bombA, bombB, hitOf, remainingAt, currentSpawnInterval,
    sweepGrid, sweepEntity, spawnEntity, getDifficulty, maxConcurrentOf,
    unhitCount, emptyIndices, isUnhit, GAME_DURATION, GRID_SIZE,
    SPAWN_INTERVAL_START, SPAWN_INTERVAL_END, MOLE_DURATION_START,
    MOLE_DURATION_END, List.range_succ, List.filter, List.getD, List.set]

theorem traceStep4 : handleWhack 1 traceS3 = traceS4 := by
  norm_num [handleWhack, traceS3, traceS4, bombA, bombB, hitOf, gridGet, gridSet,
    markHit, List.getD, List.set, Int.toNat_ofNat, List.getElem?_cons_zero, List.getElem?_cons_succ]

theorem traceStep5 : loop 4000 0 0.9 3 traceS4 = traceS5 := by
  norm_num [loop, traceS4, traceS5, bombA, bombB, bombC, hitOf, remainingAt, currentSpawnInterval,
    sweepGrid, sweepEntity, spawnEntity, getDifficulty, maxConcurrentOf,
    unhitCount, emptyIndices, isUnhit, GAME_DURATION, GRID_SIZE,
    SPAWN_INTERVAL_START, SPAWN_INTERVAL_END, MOLE_DURATION_START,
    MOLE_DURATION_END, List.range_succ, List.filter, List.getD, List.set]

theorem traceStep6 : handleWhack 2 traceS5 = traceS6 := by
  norm_num [handleWhack, traceS5, traceS6, bombA, bombB, bombC, hitOf, gridGet, gridSet,
    markHit, List.getD, List.set, int_toNat_two, List.getElem?_cons_zero, List.getElem?_cons_succ]

theorem traceStep7 : loop 5000 0 0.9 4 traceS6 = traceS7 := by
  norm_num [loop, traceS6, traceS7, bombA, bombB, bombC, bombD, hitOf, remainingAt, currentSpawnInterval,
    sweepGrid, sweepEntity, spawnEntity, getDifficulty, maxConcurrentOf,
    unhitCount, emptyIndices, isUnhit, GAME_DURATION, GRID_SIZE,
    SPAWN_INTERVAL_START, SPAWN_INTERVAL_END, MOLE_DURATION_START,
    MOLE_DURATION_END, List.range_succ, List.filter, List.getD, List.set]

theorem traceStep8 : handleWhack 3 traceS7 = traceS8 := by
  norm_num [handleWhack, traceS7, traceS8, bombC, bombD, hitOf, gridGet, gridSet,
    markHit, List.getD, List.set, int_toNat_three, List.getElem?_cons_zero, List.getElem?_cons_succ]

theorem bombTrace_eq : bombTrace = traceS8 := by
  rw [bombTrace, traceStep1, traceStep2, traceStep3, traceStep4, traceStep5,
    traceStep6, traceStep7, traceStep8]

theorem bombTrace_reachable : Reachable 5000 bombTrace := by
  refine Reachable.whack 5000 _ 3 ?_
  refine Reachable.tick 4000 5000 0 0.9 4 _ ?_ (by norm_num)
  refine Reachable.whack 4000 _ 2 ?_
  refine Reachable.tick 3000 4000 0 0.9 3 _ ?_ (by norm_num)
  refine Reachable.whack 3000 _ 1 ?_
  refine Reachable.tick 2000 3000 0 0.9 2 _ ?_ (by norm_num)
  refine Reachable.whack 2000 _ 0 ?_
  refine Reachable.tick 1000 2000 0 0.9 1 _ ?_ (by norm_num)
  exact Reachable.init 1000 (by norm_num)



/-! ### Counting, difficulty and spawn-guard lemmas -/

theorem unhitCount_eq_countP (g : GridState) : unhitCount g = g.countP isUnhit := by
  rw [unhitCount, List.countP_eq_length_filter]

theorem countP_set_le_succ (p : Option GameEntity → Bool) :
    ∀ (g : GridState) (i : ℕ) (x : Option GameEntity),
      (g.set i x).countP p ≤ g.countP p + 1 := by
  intro g
  induction g with
  | nil =>
    intro i x
    simp
  | cons a l ih =>
    intro i x
    cases i with
    | zero =>
      simp only [List.set_cons_zero, List.countP_cons]
      split_ifs <;> omega
    | succ n =>
      simp only [List.set_cons_succ, List.countP_cons]
      have := ih n x
      split_ifs <;> omega

theorem countP_set_le_of_not (p : Option GameEntity → Bool) :
    ∀ (g : GridState) (i : ℕ) (x : Option GameEntity), p x = false →
      (g.set i x).countP p ≤ g.countP p := by
  intro g
  induction g with
  | nil =>
    intro i x _
    simp
  | cons a l ih =>
    intro i x hx
    cases i with
    | zero =>
      simp only [List.set_cons_zero, List.countP_cons, hx, Bool.false_eq_true, if_false]
      split_ifs <;> omega
    | succ n =>
      simp only [List.set_cons_succ, List.countP_cons]
      have := ih n x hx
      split_ifs <;> omega

theorem countP_map_sweep_le (now : ℚ) :
    ∀ g : GridState, (g.map (sweepEntity now)).countP isUnhit ≤ g.countP isUnhit := by
  intro g
  induction g with
  | nil => simp
  | cons a l ih =>
    simp only [List.map_cons, List.countP_cons]
    rcases sweepEntity_cases now a with h | h <;> rw [h]
    · split_ifs <;> omega
    · simp only [isUnhit, Bool.false_eq_true, if_false]
      split_ifs <;> omega

theorem unhitCount_sweep_le (now : ℚ) (g : GridState) :
    unhitCount (sweepGrid now g) ≤ unhitCount g := by
  rw [unhitCount_eq_countP, unhitCount_eq_countP, sweepGrid]
  exact countP_map_sweep_le now g

theorem unhitCount_set_le_succ (g : GridState) (i : ℕ) (x : Option GameEntity) :
    unhitCount (g.set i x) ≤ unhitCount g + 1 := by
  rw [unhitCount_eq_countP, unhitCount_eq_countP]
  exact countP_set_le_succ isUnhit g i x

theorem unhitCount_gridSet_le_of_not (g : GridState) (i : ℤ) (x : Option GameEntity)
    (hx : isUnhit x = false) : unhitCount (gridSet g i x) ≤ unhitCount g := by
  rw [gridSet]
  split
  · rw [unhitCount_eq_countP, unhitCount_eq_countP]
    exact countP_set_le_of_not isUnhit g i.toNat x hx
  · exact le_rfl

theorem unhitCount_markHit_le (i : ℤ) (g : GridState) :
    unhitCount (markHit i g) ≤ unhitCount g := by
  cases h : gridGet g i with
  | none =>
    rw [markHit_of_none g i h]
  | some e =>
    rw [markHit_of_some g i e h]
    exact unhitCount_gridSet_le_of_not g i _ (by simp [isUnhit])

theorem unhitCount_handleWhack_le (i : ℤ) (s : GameState) :
    unhitCount (handleWhack i s).grid ≤ unhitCount s.grid := by
  cases h : gridGet s.grid i with
  | none =>
    rw [handleWhack_of_none s i h]
  | some e =>
    by_cases hh : e.isHit
    · rw [handleWhack_of_hit s i e h hh]
    · rw [handleWhack_grid_of_unhit s i e h (by simpa using hh)]
      exact unhitCount_markHit_le i s.grid

/- difficulty and cap monotonicity -/

theorem getDifficulty_nonneg (tl : ℚ) : 0 ≤ getDifficulty tl := by
  simp only [getDifficulty]
  exact le_min (le_max_right _ _) zero_le_one

theorem getDifficulty_le_one (tl : ℚ) : getDifficulty tl ≤ 1 := by
  simp only [getDifficulty]
  exact min_le_right _ _

theorem getDifficulty_anti {tl tl' : ℚ} (h : tl' ≤ tl) :
    getDifficulty tl ≤ getDifficulty tl' := by
  simp only [getDifficulty, GAME_DURATION]
  refine min_le_min (max_le_max ?_ le_rfl) le_rfl
  linarith

theorem maxConcurrentOf_anti {tl tl' : ℚ} (h : tl' ≤ tl) :
    maxConcurrentOf tl ≤ maxConcurrentOf tl' := by
  simp only [maxConcurrentOf]
  exact add_le_add_left (Int.floor_mono (by linarith [getDifficulty_anti h])) 1

theorem maxConcurrentOf_le_three (tl : ℚ) : maxConcurrentOf tl ≤ 3 := by
  simp only [maxConcurrentOf]
  have h1 := getDifficulty_le_one tl
  have h2 : Int.floor (getDifficulty tl * 2) ≤ Int.floor ((2 : ℚ)) :=
    Int.floor_mono (by linarith)
  have h3 : Int.floor ((2 : ℚ)) = 2 := by norm_num
  omega

theorem one_le_maxConcurrentOf (tl : ℚ) : 1 ≤ maxConcurrentOf tl := by
  simp only [maxConcurrentOf]
  have h1 := getDifficulty_nonneg tl
  have h2 : (0 : ℤ) ≤ Int.floor (getDifficulty tl * 2) :=
    Int.floor_nonneg.mpr (by linarith)
  omega

/- spawn guard -/

theorem spawnEntity_none_of_cap (g : GridState) (tl now sr tr : ℚ) (newId : ℕ)
    (hcap : maxConcurrentOf tl ≤ (unhitCount g : ℤ)) :
    spawnEntity g tl now sr tr newId = none := by
  simp only [spawnEntity]
  rw [if_pos hcap]

theorem spawnEntity_some_count_lt (g : GridState) (tl now sr tr : ℚ) (newId : ℕ)
    (i : ℕ) (e : GameEntity) (h : spawnEntity g tl now sr tr newId = some (i, e)) :
    (unhitCount g : ℤ) < maxConcurrentOf tl := by
  by_contra hc
  push_neg at hc
  rw [spawnEntity_none_of_cap g tl now sr tr newId hc] at h
  exact Option.noConfusion h

/- the inductive invariant -/

/-! ### Invariant preservation -/

theorem inv_init (t0 : ℚ) (h : 0 < t0) : Inv t0 (initialState t0) := by
  constructor
  · exact h
  · show ((unhitCount (List.replicate GRID_SIZE none) : ℤ)) ≤ maxConcurrentOf GAME_DURATION
    norm_num [unhitCount, isUnhit, GRID_SIZE, List.replicate, List.filter,
      maxConcurrentOf, getDifficulty, GAME_DURATION]
  · show (0 : ℚ) ≤ GAME_DURATION
    norm_num [GAME_DURATION]
  · intro _
    show GAME_DURATION - (t0 - t0) / 1000 ≤ GAME_DURATION
    norm_num
  · intro hp
    simp [initialState] at hp
  · intro hp
    simp [initialState] at hp
  · intro hp
    simp [initialState] at hp
  · intro _
    rfl

theorem inv_whack (t : ℚ) (s : GameState) (i : ℤ) (hinv : Inv t s) :
    Inv t (handleWhack i s) := by
  obtain ⟨h1, h2, h3, h4, h5, h6, h7, h8⟩ := hinv
  obtain ⟨ftl, fst, fip, fpt, -⟩ := handleWhack_frame s i
  constructor
  · exact h1
  · rw [ftl]
    exact le_trans (Nat.cast_le.mpr (unhitCount_handleWhack_le i s)) h2
  · rw [ftl]
    exact h3
  · rw [fip, fst, ftl]
    exact h4
  · rw [fip, fpt, fst, ftl]
    exact h5
  · rw [fip, fpt]
    exact h6
  · rw [fip, fpt]
    exact h7
  · rw [fip, fpt]
    exact h8

theorem inv_pause (t now : ℚ) (s : GameState) (hinv : Inv t s) (hmono : t ≤ now) :
    Inv now (pauseGame now s) := by
  obtain ⟨h1, h2, h3, h4, h5, h6, h7, h8⟩ := hinv
  constructor
  · linarith
  · exact h2
  · exact h3
  · intro hp
    simp [pauseGame] at hp
  · intro _
    show GAME_DURATION - (now - s.startTime) / 1000 ≤ s.timeLeft
    by_cases hsp : s.isPaused = true
    · have hx := h5 hsp
      have hy := h6 hsp
      linarith
    · have hx := h4 (by simpa using hsp)
      linarith
  · intro _
    exact le_rfl
  · intro _
    show (0 : ℚ) < now
    linarith
  · intro hp
    simp [pauseGame] at hp

theorem inv_resume (t now : ℚ) (s : GameState) (hinv : Inv t s) (hmono : t ≤ now) :
    Inv now (resumeGame now s) := by
  obtain ⟨h1, h2, h3, h4, h5, h6, h7, h8⟩ := hinv
  rw [resumeGame]
  split_ifs with hpt
  · by_cases hsp : s.isPaused = true
    · constructor
      · linarith
      · exact h2
      · exact h3
      · intro _
        show GAME_DURATION - (now - (s.startTime + (now - s.pausedTime))) / 1000 ≤ s.timeLeft
        have hx := h5 hsp
        have heq : now - (s.startTime + (now - s.pausedTime)) = s.pausedTime - s.startTime := by
          ring
        rw [heq]
        exact hx
      · intro hp
        simp at hp
      · intro hp
        simp at hp
      · intro hp
        simp at hp
      · intro _
        rfl
    · have hz := h8 (by simpa using hsp)
      rw [hz] at hpt
      exact absurd hpt (by norm_num)
  · by_cases hsp : s.isPaused = true
    · exact absurd (h7 hsp) (by push_neg at hpt; linarith)
    · have hsp' : s.isPaused = false := by simpa using hsp
      constructor
      · linarith
      · exact h2
      · exact h3
      · intro _
        show GAME_DURATION - (now - s.startTime) / 1000 ≤ s.timeLeft
        have hx := h4 hsp'
        linarith
      · intro hp
        simp at hp
      · intro hp
        simp at hp
      · intro hp
        simp at hp
      · intro _
        exact h8 hsp'

theorem inv_loop (t now sr tr : ℚ) (newId : ℕ) (s : GameState)
    (hinv : Inv t s) (hmono : t ≤ now) : Inv now (loop now sr tr newId s) := by
  obtain ⟨h1, h2, h3, h4, h5, h6, h7, h8⟩ := hinv
  by_cases hp : s.isPaused = true
  · rw [loop, if_pos hp]
    constructor
    · linarith
    · exact h2
    · exact h3
    · intro hf
      simp [hf] at hp
    · intro _
      exact h5 hp
    · intro _
      exact le_trans (h6 hp) hmono
    · intro _
      exact h7 hp
    · intro hf
      simp [hf] at hp
  · have hp' : s.isPaused = false := by simpa using hp
    have hclock := h4 hp'
    have hnow_le : GAME_DURATION - (now - s.startTime) / 1000 ≤ s.timeLeft := by linarith
    have hntl_le : remainingAt s now ≤ s.timeLeft := max_le hnow_le h3
    have hntl_nonneg : (0 : ℚ) ≤ remainingAt s now := le_max_right _ _
    have hcapmono : maxConcurrentOf s.timeLeft ≤ maxConcurrentOf (remainingAt s now) :=
      maxConcurrentOf_anti hntl_le
    have hclocknew : GAME_DURATION - (now - s.startTime) / 1000 ≤ remainingAt s now :=
      le_max_left _ _
    simp only [loop, if_neg hp]
    by_cases hexp : remainingAt s now ≤ 0
    · rw [if_pos hexp]
      constructor
      · linarith
      · exact le_trans h2 hcapmono
      · exact hntl_nonneg
      · intro _
        exact hclocknew
      · intro hf
        simp [hp'] at hf
      · intro hf
        simp [hp'] at hf
      · intro hf
        simp [hp'] at hf
      · intro _
        exact h8 hp'
    · rw [if_neg hexp]
      by_cases hsc : now - s.lastSpawnTime > currentSpawnInterval s now
      · rw [if_pos hsc]
        cases hspawn : spawnEntity s.grid s.timeLeft now sr tr newId with
        | none =>
          constructor
          · linarith
          · exact le_trans (le_trans
              (Nat.cast_le.mpr (unhitCount_sweep_le now s.grid)) h2) hcapmono
          · exact hntl_nonneg
          · intro _
            exact hclocknew
          · intro hf
            simp [hp'] at hf
          · intro hf
            simp [hp'] at hf
          · intro hf
            simp [hp'] at hf
          · intro _
            exact h8 hp'
        | some p =>
          cases p with
          | mk i e =>
            have hlt := spawnEntity_some_count_lt s.grid s.timeLeft now sr tr newId i e hspawn
            constructor
            · linarith
            · show (unhitCount ((sweepGrid now s.grid).set i (some e)) : ℤ) ≤
                maxConcurrentOf (remainingAt s now)
              have hA := unhitCount_set_le_succ (sweepGrid now s.grid) i (some e)
              have hB := unhitCount_sweep_le now s.grid
              omega
            · exact hntl_nonneg
            · intro _
              exact hclocknew
            · intro hf
              simp [hp'] at hf
            · intro hf
              simp [hp'] at hf
            · intro hf
              simp [hp'] at hf
            · intro _
              exact h8 hp'
      · rw [if_neg hsc]
        constructor
        · linarith
        · exact le_trans (le_trans
            (Nat.cast_le.mpr (unhitCount_sweep_le now s.grid)) h2) hcapmono
        · exact hntl_nonneg
        · intro _
          exact hclocknew
        · intro hf
          simp [hp'] at hf
        · intro hf
          simp [hp'] at hf
        · intro hf
          simp [hp'] at hf
        · intro _
          exact h8 hp'

theorem inv_reachable {t : ℚ} {s : GameState} (h : Reachable t s) : Inv t s := by
  induction h with
  | init t0 h0 => exact inv_init t0 h0
  | whack t s i h ih => exact inv_whack t s i ih
  | tick t now sr tr newId s h hm ih => exact inv_loop t now sr tr newId s ih hm
  | pause t now s h hm ih => exact inv_pause t now s ih hm
  | resume t now s h hm ih => exact inv_resume t now s ih hm

theorem spawnEntity_demo :
    spawnEntity (List.replicate GRID_SIZE none) GAME_DURATION 2000 0 0.9 1 = some (0, bombA) := by
  norm_num [spawnEntity, getDifficulty, maxConcurrentOf, unhitCount, emptyIndices, isUnhit,
    GAME_DURATION, GRID_SIZE, MOLE_DURATION_START, MOLE_DURATION_END, bombA,
    List.replicate, List.range_succ, List.filter]

/-! ### Claim theorems -/

/-- C1: the claim that the round-end callback is invoked exactly once per
round fails on the code.  `handleWhack` schedules a deferred
`onGameOver(score)` report whenever a bomb hit takes the lives counter to
`newLives <= 0` (not only to exactly 0), and nothing stops play during the
500ms grace window, so a fourth bomb hit in the same round schedules a
second report.  The state `bombTrace` is reachable from `initialState`
(four spawned bombs, each whacked) and carries two scheduled round-end
reports `(500ms, score 0)`. -/
theorem round_end_report_double_schedule :
    Reachable 5000 bombTrace ∧ bombTrace.reports = [((500 : ℚ), 0), ((500 : ℚ), 0)] :=
  ⟨bombTrace_reachable, by rw [bombTrace_eq]; rfl⟩

/-- C2: the claim that lives never go below 0 fails on the code.
`setLives(prev => prev - 1)` has no floor: after three bomb hits reach 0
lives, play continues during the deferred 500ms game-over window, and a
fourth bomb hit drives the lives counter to -1 in the reachable state
`bombTrace`. -/
theorem lives_below_zero_reachable :
    Reachable 5000 bombTrace ∧ bombTrace.lives = -1 :=
  ⟨bombTrace_reachable, by rw [bombTrace_eq]; rfl⟩

/-- C3: the hit resolver is a no-op (the whole state unchanged, hence grid,
score and lives unchanged) when the slot is empty or its entity is already
hit, and invoking it twice in succession on the same slot equals invoking
it once, so score/lives can only change on the first invocation. -/
theorem hit_resolver_noop_and_idempotent (s : GameState) (i : ℤ) :
    (gridGet s.grid i = none → handleWhack i s = s) ∧
    (∀ e : GameEntity, gridGet s.grid i = some e → e.isHit = true → handleWhack i s = s) ∧
    handleWhack i (handleWhack i s) = handleWhack i s :=
  ⟨handleWhack_of_none s i, fun e he hh => handleWhack_of_hit s i e he hh,
    handleWhack_idem s i⟩

/-- C3 witness: the no-op and idempotence facts at concrete states. -/
theorem hit_resolver_noop_witness :
    handleWhack 0 (initialState 1000) = initialState 1000 ∧
    handleWhack 5 (handleWhack 5 (initialState 2000)) = handleWhack 5 (initialState 2000) :=
  ⟨(hit_resolver_noop_and_idempotent (initialState 1000) 0).1 rfl,
    (hit_resolver_noop_and_idempotent (initialState 2000) 5).2.2⟩

/-- C4: in every state reachable from a fresh round by any interleaving of
whacks, ticks and pause/resume transitions with a monotone clock, the
number of occupied slots holding an unhit entity is at most
`maxConcurrent = 1 + floor(difficulty * 2)` computed from the state's
remaining time; and `spawnEntity` never spawns when that count already
reaches the cap. -/
theorem concurrency_cap_invariant (t : ℚ) (s : GameState) (h : Reachable t s) :
    (unhitCount s.grid : ℤ) ≤ maxConcurrentOf s.timeLeft ∧
    (∀ (g : GridState) (tl now sr tr : ℚ) (newId : ℕ),
      maxConcurrentOf tl ≤ (unhitCount g : ℤ) →
      spawnEntity g tl now sr tr newId = none) :=
  ⟨(inv_reachable h).cap, fun g tl now sr tr newId hcap =>
    spawnEntity_none_of_cap g tl now sr tr newId hcap⟩

/-- C4 witness: the cap invariant at the initial state of a round. -/
theorem concurrency_cap_invariant_witness :
    (unhitCount (initialState 1000).grid : ℤ) ≤ maxConcurrentOf (initialState 1000).timeLeft :=
  (concurrency_cap_invariant 1000 (initialState 1000)
    (Reachable.init 1000 (by norm_num))).1



/-- C5: the per-slot sweep clears a hit entity only when
`now - spawnTime > duration + 500`, clears an unhit entity only when
`now - spawnTime > duration`, leaves the slot unchanged otherwise, and a
tick (which contains the sweep) never changes score or lives, for any
entity kind including bombs. -/
theorem sweeper_per_slot (now : ℚ) (e : GameEntity) (s : GameState)
    (sr tr : ℚ) (newId : ℕ) :
    (e.isHit = true → now - e.spawnTime > e.duration + 500 →
      sweepEntity now (some e) = none) ∧
    (e.isHit = false → now - e.spawnTime > e.duration →
      sweepEntity now (some e) = none) ∧
    (¬(e.isHit = true ∧ now - e.spawnTime > e.duration + 500) →
     ¬(e.isHit = false ∧ now - e.spawnTime > e.duration) →
      sweepEntity now (some e) = some e) ∧
    (loop now sr tr newId s).score = s.score ∧
    (loop now sr tr newId s).lives = s.lives := by
  refine ⟨?_, ?_, ?_, (loop_preserves_score_lives now sr tr newId s).1,
    (loop_preserves_score_lives now sr tr newId s).2⟩
  · intro hh hx
    rw [sweepEntity, if_pos ⟨hh, hx⟩]
  · intro hh hx
    rw [sweepEntity, if_neg, if_pos ⟨hh, hx⟩]
    rintro ⟨h1, _⟩
    rw [hh] at h1
    exact Bool.noConfusion h1
  · intro h1 h2
    rw [sweepEntity, if_neg h1, if_neg h2]

/-- C5 witness: sweep decisions and tick score/lives preservation at concrete inputs. -/
theorem sweeper_per_slot_witness :
    sweepEntity 4500 (some (hitOf bombA)) = none ∧
    sweepEntity 3000 (some bombA) = some bombA ∧
    (loop 4500 0 0 0 (initialState 1000)).lives = (initialState 1000).lives := by
  refine ⟨(sweeper_per_slot 4500 (hitOf bombA) (initialState 1000) 0 0 0).1 rfl
      (by norm_num [hitOf, bombA]),
    (sweeper_per_slot 3000 bombA (initialState 1000) 0 0 0).2.2.1 ?_ ?_,
    (sweeper_per_slot 4500 (hitOf bombA) (initialState 1000) 0 0 0).2.2.2.2⟩
  · rintro ⟨h, -⟩
    exact absurd h (by norm_num [bombA])
  · rintro ⟨-, h⟩
    norm_num [bombA] at h

/-- C6: while paused a tick is the identity on the state (so remaining time
is unaffected); resuming at `t2` after pausing at `t1 > 0` shifts the
start-time reference forward by exactly the pause duration `t2 - t1`, so
the remaining time computed immediately after the resume equals the value
immediately before the pause began; and while playing the remaining-time
function is non-increasing in the clock. -/
theorem pause_freeze_and_monotone (s : GameState) (now sr tr : ℚ) (newId : ℕ)
    (t1 t2 n1 n2 : ℚ) :
    (s.isPaused = true → loop now sr tr newId s = s) ∧
    (0 < t1 → t1 ≤ t2 →
      (resumeGame t2 (pauseGame t1 s)).startTime = s.startTime + (t2 - t1) ∧
      remainingAt (resumeGame t2 (pauseGame t1 s)) t2 = remainingAt s t1) ∧
    (n1 ≤ n2 → remainingAt s n2 ≤ remainingAt s n1) ∧
    (s.isPaused = false → (loop now sr tr newId s).timeLeft = remainingAt s now) := by
  refine ⟨?_, ?_, ?_, ?_⟩
  · intro hp
    rw [loop, if_pos hp]
  · intro h1 _
    have hres : resumeGame t2 (pauseGame t1 s) =
        { s with isPaused := false, startTime := s.startTime + (t2 - t1),
                 pausedTime := 0 } := by
      rw [resumeGame]
      rw [if_pos (by simpa [pauseGame] using h1)]
      simp [pauseGame]
    constructor
    · rw [hres]
    · rw [hres, remainingAt, remainingAt]
      ring_nf
  · intro hle
    rw [remainingAt, remainingAt]
    refine max_le_max ?_ le_rfl
    have : (n1 - s.startTime) / 1000 ≤ (n2 - s.startTime) / 1000 := by linarith
    linarith
  · intro hp
    have hp' : ¬ (s.isPaused = true) := by simp [hp]
    simp only [loop, if_neg hp']
    split
    · rfl
    · split
      · split
        · rfl
        · rfl
      · rfl

/-- C6 witness: freeze, shift and monotonicity facts at concrete states. -/
theorem pause_freeze_witness :
    loop 4500 0 0 9 pausedDemo = pausedDemo ∧
    (resumeGame 5000 (pauseGame 4000 (initialState 1000))).startTime = 1000 + (5000 - 4000) ∧
    remainingAt (resumeGame 5000 (pauseGame 4000 (initialState 1000))) 5000 =
      remainingAt (initialState 1000) 4000 ∧
    remainingAt (initialState 1000) 4000 ≤ remainingAt (initialState 1000) 2000 ∧
    (loop 2000 0 0 9 (initialState 1000)).timeLeft = remainingAt (initialState 1000) 2000 := by
  refine ⟨?_, ?_, ?_, ?_, ?_⟩
  · exact (pause_freeze_and_monotone pausedDemo 4500 0 0 9 1 1 1 1).1 rfl
  · exact ((pause_freeze_and_monotone (initialState 1000) 1 0 0 9 4000 5000 1 1).2.1
      (by norm_num) (by norm_num)).1
  · exact ((pause_freeze_and_monotone (initialState 1000) 1 0 0 9 4000 5000 1 1).2.1
      (by norm_num) (by norm_num)).2
  · exact (pause_freeze_and_monotone (initialState 1000) 1 0 0 9 1 1 2000 4000).2.2.1
      (by norm_num)
  · exact (pause_freeze_and_monotone (initialState 1000) 2000 0 0 9 1 1 1 1).2.2.2 rfl

/-- C7: whenever a spawn succeeds with kind draw `r` in `[0,1)`, the spawned
entity is a bomb iff `r > 0.85`, golden iff `0.7 < r <= 0.85`, and a mole
iff `r <= 0.7`. -/
theorem spawn_kind_distribution (grid : GridState) (timeLeft now slotRoll r : ℚ)
    (newId : ℕ) (i : ℕ) (e : GameEntity) (h0 : 0 ≤ r) (h1 : r < 1)
    (h : spawnEntity grid timeLeft now slotRoll r newId = some (i, e)) :
    (e.type = EntityType.bomb ↔ r > 0.85) ∧
    (e.type = EntityType.golden ↔ (0.7 < r ∧ r ≤ 0.85)) ∧
    (e.type = EntityType.mole ↔ r ≤ 0.7) := by
  simp only [spawnEntity] at h
  split_ifs at h with hcap hempty hb hg
  · simp only [Option.some.injEq, Prod.mk.injEq] at h
    obtain ⟨-, he⟩ := h
    subst he
    simp only [true_iff, iff_true]
    refine ⟨by simpa using hb, ?_, ?_⟩
    · constructor
      · intro hx
        exact EntityType.noConfusion hx
      · rintro ⟨-, hx⟩
        exact absurd hb (by push_neg; linarith)
    · constructor
      · intro hx
        exact EntityType.noConfusion hx
      · intro hx
        exact absurd hb (by push_neg; norm_num; linarith)
  · simp only [Option.some.injEq, Prod.mk.injEq] at h
    obtain ⟨-, he⟩ := h
    subst he
    push_neg at hb
    refine ⟨⟨fun hx => EntityType.noConfusion hx, fun hx => absurd hb (by push_neg; exact hx)⟩,
      ⟨fun _ => ⟨by simpa using hg, by exact_mod_cast hb⟩, fun _ => rfl⟩,
      ⟨fun hx => EntityType.noConfusion hx, fun hx => absurd hg (by push_neg; norm_num; linarith)⟩⟩
  · simp only [Option.some.injEq, Prod.mk.injEq] at h
    obtain ⟨-, he⟩ := h
    subst he
    push_neg at hb hg
    have hg' : r ≤ 0.7 := by exact_mod_cast hg
    refine ⟨⟨fun hx => EntityType.noConfusion hx, fun hx => absurd hb (by push_neg; exact hx)⟩,
      ⟨fun hx => EntityType.noConfusion hx, fun hx => by linarith [hx.1]⟩,
      ⟨fun _ => hg', fun _ => rfl⟩⟩


/- C8: spawn cadence -/

/-- C7 witness: the kind distribution at a concrete successful spawn with draw 0.9. -/
theorem spawn_kind_distribution_witness :
    (bombA.type = EntityType.bomb ↔ (0.9 : ℚ) > 0.85) ∧
    (bombA.type = EntityType.golden ↔ ((0.7 : ℚ) < 0.9 ∧ (0.9 : ℚ) ≤ 0.85)) ∧
    (bombA.type = EntityType.mole ↔ (0.9 : ℚ) ≤ 0.7) :=
  spawn_kind_distribution (List.replicate GRID_SIZE none) GAME_DURATION 2000 0 0.9 1 0 bombA
    (by norm_num) (by norm_num) spawnEntity_demo


/- counting lemmas for the concurrency cap -/

/-- C8 (amended): on an unpaused, unexpired tick, a spawn is attempted (the
last-spawn-attempt reference is set to `now`) iff strictly more than
`intervalStart - d*(intervalStart - intervalEnd)` milliseconds have
elapsed since the last spawn attempt.  The claim's "at least" fails at the
exact boundary, see the counterexample. -/
theorem spawn_attempt_iff_strict (s : GameState) (now sr tr : ℚ) (newId : ℕ)
    (hp : s.isPaused = false) (ht : 0 < remainingAt s now)
    (hl : s.lastSpawnTime ≠ now) :
    ((loop now sr tr newId s).lastSpawnTime = now ↔
      now - s.lastSpawnTime > currentSpawnInterval s now) := by
  have hp' : ¬ (s.isPaused = true) := by simp [hp]
  simp only [loop, if_neg hp', if_neg (not_le.mpr ht)]
  by_cases hc : now - s.lastSpawnTime > currentSpawnInterval s now
  · rw [if_pos hc]
    cases hsp : spawnEntity s.grid s.timeLeft now sr tr newId with
    | none => simpa using hc
    | some p =>
      cases p with
      | mk i e => simpa using hc
  · rw [if_neg hc]
    simp only [hc, iff_false]
    exact hl

/-- C8 counterexample: with `lastSpawnTime = 720`, `startTime = 0` and a tick
at `now = 1500`, exactly `780 = currentSpawnInterval` milliseconds have
elapsed — "at least the interval" holds — yet the code (strict `>`)
does not attempt a spawn: `lastSpawnTime` stays 720. -/
theorem spawn_attempt_boundary_counterexample :
    1500 - c8State.lastSpawnTime ≥ currentSpawnInterval c8State 1500 ∧
    c8State.isPaused = false ∧
    0 < remainingAt c8State 1500 ∧
    (loop 1500 0 0 0 c8State).lastSpawnTime = 720 ∧
    (720 : ℚ) ≠ 1500 := by
  refine ⟨?_, rfl, ?_, ?_, by norm_num⟩
  · norm_num [c8State, currentSpawnInterval, remainingAt, GAME_DURATION,
      SPAWN_INTERVAL_START, SPAWN_INTERVAL_END]
  · norm_num [c8State, remainingAt, GAME_DURATION]
  · norm_num [loop, c8State, remainingAt, currentSpawnInterval, GAME_DURATION,
      SPAWN_INTERVAL_START, SPAWN_INTERVAL_END, GRID_SIZE, sweepGrid,
      sweepEntity, List.replicate]

/-- C8 witness: the amended cadence theorem applied at a concrete tick. -/
theorem spawn_attempt_iff_strict_witness :
    (loop 2000 0 0 7 c8State).lastSpawnTime = 2000 ↔
      2000 - c8State.lastSpawnTime > currentSpawnInterval c8State 2000 :=
  spawn_attempt_iff_strict c8State 2000 0 0 7 rfl
    (by norm_num [c8State, remainingAt, GAME_DURATION]) (by norm_num [c8State])

/- C6: pause / resume time freeze -/

/-- C9 (amended): a hit-resolver invocation on an index outside the grid
bounds (negative or >= 12) is silently ignored — it returns the state
unchanged through the same recoverable empty-slot guard, with no
assertion or contract check. -/
theorem out_of_bounds_whack_noop (s : GameState) (i : ℤ)
    (hlen : s.grid.length = GRID_SIZE) (hi : i < 0 ∨ (GRID_SIZE : ℤ) ≤ i) :
    handleWhack i s = s := by
  refine handleWhack_of_none s i ?_
  rcases hi with hi | hi
  · rw [gridGet, if_neg (by omega)]
  · rw [gridGet, if_pos (by omega), getD_of_length_le]
    rw [hlen]
    simp only [GRID_SIZE] at hi ⊢
    omega

/-- C9 counterexample: out-of-bounds interactions (indices -1 and 12) are
handled as ordinary recoverable no-ops — the resolver returns the
unchanged state, exactly as for an empty in-range slot, contradicting the
claim that they are rejected by an assertion/contract check. -/
theorem out_of_bounds_whack_counterexample :
    handleWhack (-1) (initialState 3000) = initialState 3000 ∧
    handleWhack 12 (initialState 3000) = initialState 3000 := by
  constructor
  · rfl
  · rfl

/-- C9 witness: the amended out-of-bounds behaviour at index 50. -/
theorem out_of_bounds_whack_noop_witness :
    handleWhack 50 (initialState 1000) = initialState 1000 :=
  out_of_bounds_whack_noop (initialState 1000) 50 rfl (Or.inr (by norm_num [GRID_SIZE]))

/-- C10: when the hit resolver fires on a slot holding an unhit entity, the
only grid mutation is setting that entity's `isHit` field to true: the
resulting grid is a single-slot update, the entity keeps its `id`, `type`,
`spawnTime` and `duration`, and every other slot is unchanged. -/
theorem whack_frame_effect (s : GameState) (i : ℤ) (e : GameEntity)
    (h : gridGet s.grid i = some e) (hh : e.isHit = false) :
    (handleWhack i s).grid = gridSet s.grid i (some { e with isHit := true }) ∧
    gridGet (handleWhack i s).grid i =
      some { id := e.id, type := e.type, spawnTime := e.spawnTime,
             duration := e.duration, isHit := true } ∧
    (∀ j : ℤ, j ≠ i → gridGet (handleWhack i s).grid j = gridGet s.grid j) := by
  have hgrid := handleWhack_grid_of_unhit s i e h hh
  refine ⟨?_, ?_, ?_⟩
  · rw [hgrid, markHit_of_some s.grid i e h]
  · rw [hgrid]
    exact gridGet_markHit_self s.grid i e h
  · intro j hj
    rw [hgrid, markHit_of_some s.grid i e h]
    exact gridGet_gridSet_ne s.grid i j _ hj (gridGet_some_nonneg s.grid i e h)


/- loop frame: the tick never touches score or lives -/

/-- C10 witness: the frame effect of whacking the bomb in slot 0 of a concrete state. -/
theorem whack_frame_effect_witness :
    (handleWhack 0 traceS1).grid = gridSet traceS1.grid 0 (some { bombA with isHit := true }) ∧
    gridGet (handleWhack 0 traceS1).grid 0 =
      some { id := bombA.id, type := bombA.type, spawnTime := bombA.spawnTime,
             duration := bombA.duration, isHit := true } ∧
    gridGet (handleWhack 0 traceS1).grid 5 = gridGet traceS1.grid 5 :=
  ⟨(whack_frame_effect traceS1 0 bombA rfl rfl).1,
    (whack_frame_effect traceS1 0 bombA rfl rfl).2.1,
    (whack_frame_effect traceS1 0 bombA rfl rfl).2.2 5 (by norm_num)⟩

end WhackAMole
